import Mathlib

/-!
Verification of the codestats-box core against its specification.

The development shallowly embeds the Python modules of the repository:
`utils.py` (level calculation and value rendering), `models.py` (the
statistics value objects and the line renderer), `formatter.py` (mode
driven selection, sorting and rendering of the gist lines), `gist.py`
(the idempotent gist update step) and `api.py` (the fetch client with
its tenacity retry policy).  Machine integers are modelled as `Int`
(Python integers are unbounded), dynamic payloads as an inductive
`PyVal`, and fallible code as `Except` over an inductive of the raised
exception kinds.  Floating point arithmetic in the level formula is
embedded as exact real arithmetic, which is what the specification
demands of the formula.
-/

namespace CodeStatsBox

/-- Embedding of the formula `utils.calculate_level` documents and the
specification prescribes: `0` for negative input, else the exact value
`floor(0.025 * sqrt(xp))`, computed here as `Nat.sqrt xp / 40` (the
helper theorem `nat_sqrt_div_forty_eq_floor` proves the two equal).
This is the intended function, not the bit-for-bit program: the source
evaluates `math.floor(0.025 * math.sqrt(xp))` in IEEE double
precision, which drifts from this exact value at large 64-bit inputs
and overflows beyond double range — the theorem for claim C9 records
that divergence as a bug of the code. -/
def calculate_level (xp : Int) : Int :=
  if xp < 0 then 0 else ((Nat.sqrt xp.toNat / 40 : Nat) : Int)

/-- Helper for the Python thousands grouping: given the reversed digit
characters, insert a comma after every third digit. -/
def insertCommasRev : List Char → Nat → List Char
  | [], _ => []
  | c :: cs, n =>
    if n ≠ 0 ∧ n % 3 = 0 then ',' :: c :: insertCommasRev cs (n + 1)
    else c :: insertCommasRev cs (n + 1)

/-- Thousands grouping of a natural number with commas, as the Python
format specifier `{:,}` renders it for non-negative integers. -/
def commaGroupNat (n : Nat) : String :=
  String.mk ((insertCommasRev (toString n).data.reverse 0).reverse)

/-- Thousands grouping of an integer with commas, as the Python format
specifier `{:,}` renders it. -/
def pyComma (n : Int) : String :=
  if n < 0 then "-" ++ commaGroupNat n.natAbs else commaGroupNat n.natAbs

/-- Right alignment to width `w` with spaces, as the Python format
specifier `{:>w}` renders a string no longer than `w`. -/
def rightAlign (w : Nat) (s : String) : String :=
  String.mk (List.replicate (w - s.length) ' ') ++ s

/-- Embedding of the Python f-string piece `{n:>w,}`. -/
def pyFormatIntComma (n : Int) (w : Nat) : String :=
  rightAlign w (pyComma n)

/-- Embedding of the Python f-string piece `{n:>w}`. -/
def pyFormatInt (n : Int) (w : Nat) : String :=
  rightAlign w (toString n)

/-- Embedding of `utils.format_xp_value`.  The optional `new_xp`
argument mirrors the Python default `new_xp=None`. -/
def format_xp_value (xp level : Int) (new_xp : Option Int) : String :=
  let base := "lvl " ++ pyFormatInt level 3 ++ " (" ++ pyFormatIntComma xp 9 ++ " XP)"
  match new_xp with
  | some nx => if 0 < nx then base ++ " (+" ++ pyFormatIntComma nx 6 ++ ")" else base
  | none => base

/-- Embedding of `utils.format_xp_only`. -/
def format_xp_only (xp : Int) : String :=
  pyFormatIntComma xp 9 ++ " XP"

/-- Embedding of the `models.LanguageStats` dataclass with its declared
field types. -/
structure LanguageStats where
  name : String
  xp : Int
  new_xp : Int
  level : Int
deriving DecidableEq, Repr

/-- Embedding of the `models.UserStats` dataclass with its declared
field types. -/
structure UserStats where
  username : String
  total_xp : Int
  new_xp : Int
  level : Int
  languages : List LanguageStats
deriving DecidableEq, Repr

/-- Embedding of the `models.FormattedLine` dataclass. -/
structure FormattedLine where
  title : String
  value : String
deriving DecidableEq, Repr

/-- Embedding of the Python expression `s * n` on strings. -/
def pyStrRepeat (s : String) : Nat → String
  | 0 => ""
  | n + 1 => s ++ pyStrRepeat s n

/-- Embedding of `models.FormattedLine.format`: the separator run has
length `max(width - len(title) - len(value) - 2, 1)` and is surrounded
by one space on each side. -/
def FormattedLine.format (line : FormattedLine) (separator : String) (width : Int) : String :=
  let available_space : Int := width - line.title.length - line.value.length - 2
  let sep := " " ++ pyStrRepeat separator (max available_space 1).toNat ++ " "
  line.title ++ sep ++ line.value

/-- Embedding of the `config.StatsType` enumeration. -/
inductive StatsType
  | LEVEL_XP
  | RECENT_XP
  | XP
deriving DecidableEq, Repr

/-- Embedding of the Python call `sorted(l, key=key, reverse=True)`:
a stable sort placing larger keys first, keeping the original relative
order of elements with equal keys.  `List.insertionSort` with the
relation `key b ≤ key a` has exactly this behaviour. -/
def pySortDesc {α : Type} (key : α → Int) (l : List α) : List α :=
  List.insertionSort (fun a b => key b ≤ key a) l

/-- Embedding of `GistFormatter.NO_RECENT_ACTIVITY`. -/
def NO_RECENT_ACTIVITY : List FormattedLine :=
  [ ⟨"Not been coding recently", "🙈"⟩,
    ⟨"Probably busy with something else", "🗓"⟩,
    ⟨"Or just taking a break", "🌴"⟩,
    ⟨"But would be back to it soon!", "🤓"⟩ ]

/-- Embedding of `GistFormatter.GIST_TITLES` keyed lookup in
`GistFormatter.get_title`. -/
def get_title : StatsType → String
  | .LEVEL_XP => "🧑🏻‍💻 My Code::Stats XP (Top Languages)"
  | .RECENT_XP => "🧑🏻‍💻 My Code::Stats XP (Recent Languages)"
  | .XP => "🧑🏻‍💻 My Code::Stats XP (Top Languages)"

/-- Embedding of `GistFormatter._format_total_line`, with the
configured stats type passed explicitly. -/
def format_total_line (stats_type : StatsType) (stats : UserStats) : FormattedLine :=
  let value :=
    match stats_type with
    | .XP => format_xp_only stats.total_xp
    | .RECENT_XP => format_xp_value stats.total_xp stats.level (some stats.new_xp)
    | .LEVEL_XP => format_xp_value stats.total_xp stats.level none
  ⟨"Total XP", value⟩

/-- Embedding of `GistFormatter._format_language_line`. -/
def format_language_line (stats_type : StatsType) (lang : LanguageStats) : FormattedLine :=
  let value :=
    match stats_type with
    | .XP => format_xp_only lang.xp
    | .RECENT_XP => format_xp_value lang.xp lang.level (some lang.new_xp)
    | .LEVEL_XP => format_xp_value lang.xp lang.level none
  ⟨lang.name, value⟩

/-- Embedding of `GistFormatter._format_language_lines`: in recent-xp
mode filter to positive recent XP, sort by recent XP descending, keep
the first `top_count` and fall back to the placeholder block when
nothing remains; otherwise sort by total XP descending and keep the
first `top_count`. -/
def format_language_lines (stats_type : StatsType) (top_count : Nat)
    (languages : List LanguageStats) : List FormattedLine :=
  if stats_type = StatsType.RECENT_XP then
    let active_languages := languages.filter (fun lang => 0 < lang.new_xp)
    let sorted_languages := (pySortDesc (fun x => x.new_xp) active_languages).take top_count
    if sorted_languages.isEmpty then NO_RECENT_ACTIVITY
    else sorted_languages.map (format_language_line stats_type)
  else
    let sorted_languages := (pySortDesc (fun x => x.xp) languages).take top_count
    sorted_languages.map (format_language_line stats_type)

/-- Embedding of `GistFormatter._get_formatted_lines`. -/
def get_formatted_lines (stats_type : StatsType) (top_count : Nat)
    (stats : UserStats) : List FormattedLine :=
  format_total_line stats_type stats :: format_language_lines stats_type top_count stats.languages

/-- Embedding of `GistFormatter.format_content`, with the settings
fields passed explicitly. -/
def format_content (stats_type : StatsType) (top_count : Nat) (max_line_length : Int)
    (stats : UserStats) : String :=
  String.intercalate "\n"
    ((get_formatted_lines stats_type top_count stats).map
      (fun line => line.format ":" max_line_length))

/-! ### Gist update client (`gist.py`) -/

/-- The remote gist record: an ordered association of file names to
file bodies, as `gist.files` exposes it. -/
structure GistState where
  files : List (String × String)
deriving DecidableEq, Repr

/-- Exception kinds raised by the embedded Python code.  Each
constructor names one exception class that can escape the modelled
functions; `codeStatsAPIError` carries the HTTP status code when the
wrapped cause was a non-2xx response. -/
inductive PyExc
  | codeStatsAPIError (statusCode : Option Nat)
  | gitHubAPIError
  | dataValidationError
  | typeError
  | attributeError
  | timeoutException
  | networkError
  | httpStatusError (code : Nat)
deriving DecidableEq, Repr

/-- Embedding of `GistUpdater.update_gist` over an explicit remote
state.  The result carries the returned boolean, the remote state after
the call, and the number of write operations performed, so that the
write-avoidance of the claim is visible in the model.  The write
`gist.edit(files={old_title: InputFileContent(content, title)})`
replaces the first file name and body with the new title and content. -/
def update_gist (title content : String) (g : GistState) :
    Except PyExc (Bool × GistState × Nat) :=
  match g.files with
  | [] => .error .gitHubAPIError
  | (old_title, current_content) :: rest =>
    if current_content = content ∧ old_title = title then
      .ok (false, g, 0)
    else
      .ok (true, ⟨(title, content) :: rest⟩, 1)

/-! ### Fetch client (`api.py` with `models.py` construction)

The API payload is loosely typed, so the construction path is embedded
over a dynamic value type.  Numbers in the payload are modelled as
integer values; every other shape is a non-numeric value. -/

/-- Dynamic Python values appearing in a decoded JSON payload. -/
inductive PyVal
  | int (n : Int)
  | str (s : String)
  | dict (entries : List (String × PyVal))

/-- Embedding of the Python call `data.get(key, default)`.  On a
non-mapping receiver the attribute lookup `.get` raises
`AttributeError`. -/
def PyVal.get (v : PyVal) (key : String) (dflt : PyVal) : Except PyExc PyVal :=
  match v with
  | .dict es => .ok ((es.lookup key).getD dflt)
  | _ => .error .attributeError

/-- Whether a dynamic payload value is a number. -/
def PyVal.isNumber : PyVal → Bool
  | .int _ => true
  | _ => false

/-- The dynamic behaviour of `calculate_level` when applied to a raw
payload value: Python compares `xp < 0`, which raises `TypeError` on a
non-numeric operand. -/
def pyCalculateLevel (v : PyVal) : Except PyExc Int :=
  match v with
  | .int n => .ok (calculate_level n)
  | _ => .error .typeError

/-- What `LanguageStats.from_api_response` actually builds: the `xp`
and `new_xp` fields hold whatever value the payload supplied. -/
structure DynLanguageStats where
  name : String
  xp : PyVal
  new_xp : PyVal
  level : Int

/-- What `UserStats.from_api_response` actually builds. -/
structure DynUserStats where
  username : String
  total_xp : PyVal
  new_xp : PyVal
  level : Int
  languages : List DynLanguageStats

/-- Embedding of `LanguageStats.from_api_response` over a dynamic
payload entry.  Statements run in source order and a raised exception
aborts the construction. -/
def DynLanguageStats.from_api_response (name : String) (data : PyVal) :
    Except PyExc DynLanguageStats :=
  match data.get "xps" (.int 0) with
  | .error e => .error e
  | .ok xp =>
    match data.get "new_xps" (.int 0) with
    | .error e => .error e
    | .ok new_xp =>
      match pyCalculateLevel xp with
      | .error e => .error e
      | .ok level => .ok ⟨name, xp, new_xp, level⟩

/-- Embedding of the list comprehension over `languages_data.items()`
in `UserStats.from_api_response`, evaluated left to right. -/
def buildLanguages : List (String × PyVal) → Except PyExc (List DynLanguageStats)
  | [] => .ok []
  | (name, lang_data) :: rest =>
    match DynLanguageStats.from_api_response name lang_data with
    | .error e => .error e
    | .ok l =>
      match buildLanguages rest with
      | .error e => .error e
      | .ok ls => .ok (l :: ls)

/-- Embedding of `UserStats.from_api_response` over a dynamic payload.
Calling `.items()` on a non-mapping `languages` value raises
`AttributeError`. -/
def DynUserStats.from_api_response (username : String) (data : PyVal) :
    Except PyExc DynUserStats :=
  match data.get "total_xp" (.int 0) with
  | .error e => .error e
  | .ok total_xp =>
    match data.get "new_xp" (.int 0) with
    | .error e => .error e
    | .ok new_xp =>
      match pyCalculateLevel total_xp with
      | .error e => .error e
      | .ok level =>
        match data.get "languages" (.dict []) with
        | .error e => .error e
        | .ok (.dict entries) =>
          match buildLanguages entries with
          | .error e => .error e
          | .ok languages => .ok ⟨username, total_xp, new_xp, level, languages⟩
        | .ok _ => .error .attributeError

/-- The transport-level outcome of one HTTP request in
`get_user_stats`: a response with a status code and decoded body, or a
raised timeout or network error. -/
inductive FetchResponse
  | http (status : Nat) (body : PyVal)
  | timeout
  | netError

/-- One attempt of the `get_user_stats` body before its `except`
clauses: `client.get` may raise a transport error,
`response.raise_for_status()` raises `HTTPStatusError` on a non-2xx
status, and otherwise the payload is parsed into the model. -/
def rawAttempt (username : String) (resp : FetchResponse) : Except PyExc DynUserStats :=
  match resp with
  | .timeout => .error .timeoutException
  | .netError => .error .networkError
  | .http status body =>
    if 200 ≤ status ∧ status < 300 then
      DynUserStats.from_api_response username body
    else
      .error (.httpStatusError status)

/-- The `except` clauses of `get_user_stats`: `HTTPStatusError` is
wrapped into `CodeStatsAPIError` carrying the status code; any
`RequestError` (timeouts and network errors included) is wrapped into
`CodeStatsAPIError`; `KeyError`, `ValueError` and `TypeError` are
wrapped into `CodeStatsAPIError`; every other exception propagates. -/
def wrapExceptions {A : Type} (r : Except PyExc A) : Except PyExc A :=
  match r with
  | .error (.httpStatusError c) => .error (.codeStatsAPIError (some c))
  | .error .timeoutException => .error (.codeStatsAPIError none)
  | .error .networkError => .error (.codeStatsAPIError none)
  | .error .typeError => .error (.codeStatsAPIError none)
  | other => other

/-- One full call of the decorated function underlying
`get_user_stats`: the body with its exception handling. -/
def get_user_stats_body (username : String) (resp : FetchResponse) :
    Except PyExc DynUserStats :=
  wrapExceptions (rawAttempt username resp)

/-- The retry predicate installed by the tenacity decorator:
`retry_if_exception_type((httpx.TimeoutException, httpx.NetworkError))`
inspects the type of the exception that escaped the call. -/
def retryPredicate : PyExc → Bool
  | .timeoutException => true
  | .networkError => true
  | _ => false

/-- Embedding of the tenacity retry loop with `reraise=True`:
`remaining` counts the attempts still allowed (initially the
`stop_after_attempt` bound), `made` counts the attempts already made.
The result pairs the total number of attempts with the final outcome.
After a failing attempt the loop retries only when the predicate
accepts the escaped exception and an attempt is still allowed;
otherwise the exception is re-raised unchanged. -/
def runRetry {A : Type} (pred : PyExc → Bool) (body : Nat → Except PyExc A) :
    Nat → Nat → Nat × Except PyExc A
  | 0, made => (made, .error (.codeStatsAPIError none))
  | remaining + 1, made =>
    match body (made + 1) with
    | .ok a => (made + 1, .ok a)
    | .error e =>
      if pred e ∧ 0 < remaining then
        runRetry pred body remaining (made + 1)
      else
        (made + 1, .error e)

/-- Embedding of `CodeStatsClient.get_user_stats` as decorated: the
body runs under the tenacity policy with `stop_after_attempt`
instantiated at `maxAttempts` (hard-coded to `3` in the source).  The
transport outcome of attempt `i` is `responses i`. -/
def get_user_stats (maxAttempts : Nat) (username : String)
    (responses : Nat → FetchResponse) : Nat × Except PyExc DynUserStats :=
  runRetry retryPredicate (fun i => get_user_stats_body username (responses i)) maxAttempts 0

/-- Written from the words of the specification, for comparison with
the source embedding: the value string of a line under each display
mode, computed from that line's own xp, level and recent xp.  `XpOnly`
renders the comma-grouped xp right-aligned to 9 characters followed by
a space and `XP`; `LevelAndTotalXp` renders `lvl`, the level
right-aligned to 3 characters, and the xp in parentheses;
`RecentXp` renders the `LevelAndTotalXp` form and appends the recent
xp comma-grouped right-aligned to 6 characters exactly when it is
positive. -/
def specValueRendering (stats_type : StatsType) (xp level new_xp : Int) : String :=
  match stats_type with
  | .XP => pyFormatIntComma xp 9 ++ " XP"
  | .LEVEL_XP => "lvl " ++ pyFormatInt level 3 ++ " (" ++ pyFormatIntComma xp 9 ++ " XP)"
  | .RECENT_XP =>
    ("lvl " ++ pyFormatInt level 3 ++ " (" ++ pyFormatIntComma xp 9 ++ " XP)")
      ++ (if 0 < new_xp then " (+" ++ pyFormatIntComma new_xp 6 ++ ")" else "")

/-! ### Helper lemmas -/

/-- Inserting an element whose key equals `v` prepends it to the
`v`-filtered part: every element the insertion skips has a strictly
larger key. -/
theorem filter_orderedInsert_of_key_eq {α : Type} (key : α → Int) (v : Int) (a : α)
    (l : List α) (ha : key a = v) :
    (List.orderedInsert (fun x y => key y ≤ key x) a l).filter (fun x => key x = v)
      = a :: l.filter (fun x => key x = v) := by
  induction l with
  | nil => simp [List.orderedInsert, List.filter_cons, ha]
  | cons b l ih =>
    by_cases hb : key b ≤ key a
    · have hb' : key b ≤ v := ha ▸ hb
      simp [List.orderedInsert, hb, hb', List.filter_cons, ha]
    · have hb' : ¬ (key b ≤ v) := ha ▸ hb
      have hbv : ¬ (key b = v) := by omega
      simp [List.orderedInsert, hb, hb', List.filter_cons, hbv, ih]

/-- Inserting an element whose key differs from `v` leaves the
`v`-filtered part unchanged. -/
theorem filter_orderedInsert_of_key_ne {α : Type} (key : α → Int) (v : Int) (a : α)
    (l : List α) (ha : ¬ (key a = v)) :
    (List.orderedInsert (fun x y => key y ≤ key x) a l).filter (fun x => key x = v)
      = l.filter (fun x => key x = v) := by
  induction l with
  | nil => simp [List.orderedInsert, List.filter_cons, ha]
  | cons b l ih =>
    by_cases hb : key b ≤ key a
    · simp [List.orderedInsert, hb, List.filter_cons, ha]
    · simp [List.orderedInsert, hb, List.filter_cons, ih]

/-- Stability of the embedded Python sort: for every key value `v`,
the elements whose key equals `v` appear in the sorted output in their
original relative order. -/
theorem filter_pySortDesc {α : Type} (key : α → Int) (v : Int) (l : List α) :
    (pySortDesc key l).filter (fun x => key x = v) = l.filter (fun x => key x = v) := by
  induction l with
  | nil => rfl
  | cons a l ih =>
    simp only [pySortDesc] at ih ⊢
    show (List.orderedInsert _ a (List.insertionSort _ l)).filter _ = _
    by_cases ha : key a = v
    · rw [filter_orderedInsert_of_key_eq key v a _ ha]
      simp [List.filter_cons, ha, ih]
    · rw [filter_orderedInsert_of_key_ne key v a _ ha]
      simp [List.filter_cons, ha, ih]

/-- The embedded Python sort orders keys in descending order. -/
theorem sorted_pySortDesc {α : Type} (key : α → Int) (l : List α) :
    List.Sorted (fun a b => key b ≤ key a) (pySortDesc key l) := by
  haveI : IsTotal α (fun a b => key b ≤ key a) := ⟨fun a b => le_total (key b) (key a)⟩
  haveI : IsTrans α (fun a b => key b ≤ key a) :=
    ⟨fun a b c h1 h2 => le_trans h2 h1⟩
  exact List.sorted_insertionSort _ l

/-- Length of the embedded Python string repetition. -/
theorem length_pyStrRepeat (s : String) (n : Nat) :
    (pyStrRepeat s n).length = n * s.length := by
  induction n with
  | zero => simp [pyStrRepeat]
  | succ n ih =>
    show (s ++ pyStrRepeat s n).length = _
    rw [String.length_append, ih]
    ring

/-- If a retry run with a failing predicate ends in an error, the error
is either the degenerate zero-budget marker or escaped from one of the
attempts. -/
theorem runRetry_error_shape {A : Type} (pred : PyExc → Bool)
    (body : Nat → Except PyExc A) :
    ∀ fuel made e, (runRetry pred body fuel made).2 = .error e →
      e = .codeStatsAPIError none ∨ ∃ i, body i = .error e := by
  intro fuel
  induction fuel with
  | zero =>
    intro made e h
    simp only [runRetry] at h
    cases h
    exact Or.inl rfl
  | succ n ih =>
    intro made e h
    cases hb : body (made + 1) with
    | ok a =>
      simp only [runRetry, hb] at h
      exact Except.noConfusion h
    | error eb =>
      simp only [runRetry, hb] at h
      by_cases hc : pred eb ∧ 0 < n
      · rw [if_pos hc] at h
        exact ih (made + 1) e h
      · rw [if_neg hc] at h
        cases h
        exact Or.inr ⟨made + 1, hb⟩

/-- One attempt whose escaped exception the predicate rejects stops the
retry loop immediately, re-raising that exception. -/
theorem runRetry_stop {A : Type} (pred : PyExc → Bool) (body : Nat → Except PyExc A)
    (remaining made : Nat) (e : PyExc)
    (hb : body (made + 1) = .error e) (hp : pred e = false) :
    runRetry pred body (remaining + 1) made = (made + 1, .error e) := by
  simp [runRetry, hb, hp]

/-- Errors of the language construction are raw `TypeError` or
`AttributeError`. -/
theorem lang_from_api_error_shape (name : String) (d : PyVal) (e : PyExc)
    (h : DynLanguageStats.from_api_response name d = .error e) :
    e = .typeError ∨ e = .attributeError := by
  cases d with
  | dict es =>
    simp only [DynLanguageStats.from_api_response, PyVal.get] at h
    cases hl : pyCalculateLevel ((es.lookup "xps").getD (.int 0)) with
    | ok lvl => rw [hl] at h; cases h
    | error el =>
      rw [hl] at h
      cases h
      cases hv : (es.lookup "xps").getD (.int 0) <;>
        simp [pyCalculateLevel, hv] at hl <;> exact Or.inl hl.symm
  | int n =>
    simp only [DynLanguageStats.from_api_response, PyVal.get] at h
    cases h
    exact Or.inr rfl
  | str s =>
    simp only [DynLanguageStats.from_api_response, PyVal.get] at h
    cases h
    exact Or.inr rfl

/-- Errors of the language list construction are raw `TypeError` or
`AttributeError`. -/
theorem buildLanguages_error_shape :
    ∀ (es : List (String × PyVal)) (e : PyExc), buildLanguages es = .error e →
      e = .typeError ∨ e = .attributeError := by
  intro es
  induction es with
  | nil => intro e h; cases h
  | cons p rest ih =>
    intro e h
    simp only [buildLanguages] at h
    cases hl : DynLanguageStats.from_api_response p.1 p.2 with
    | error el =>
      rw [hl] at h
      cases h
      exact lang_from_api_error_shape p.1 p.2 e hl
    | ok l =>
      rw [hl] at h
      cases hr : buildLanguages rest with
      | error er => rw [hr] at h; cases h; exact ih e hr
      | ok ls => rw [hr] at h; cases h

/-- Errors of the user construction are raw `TypeError` or
`AttributeError`. -/
theorem user_from_api_error_shape (u : String) (d : PyVal) (e : PyExc)
    (h : DynUserStats.from_api_response u d = .error e) :
    e = .typeError ∨ e = .attributeError := by
  cases d with
  | dict es =>
    cases hl : pyCalculateLevel ((es.lookup "total_xp").getD (.int 0)) with
    | error el =>
      simp only [DynUserStats.from_api_response, PyVal.get, hl] at h
      cases h
      cases hv : (es.lookup "total_xp").getD (.int 0) <;>
        simp [pyCalculateLevel, hv] at hl <;> exact Or.inl hl.symm
    | ok lvl =>
      cases hd : (es.lookup "languages").getD (.dict []) with
      | dict entries =>
        cases hb : buildLanguages entries with
        | error eb =>
          simp only [DynUserStats.from_api_response, PyVal.get, hl, hd, hb] at h
          cases h
          exact buildLanguages_error_shape entries e hb
        | ok ls =>
          simp only [DynUserStats.from_api_response, PyVal.get, hl, hd, hb] at h
          exact Except.noConfusion h
      | int n =>
        simp only [DynUserStats.from_api_response, PyVal.get, hl, hd] at h
        cases h
        exact Or.inr rfl
      | str s =>
        simp only [DynUserStats.from_api_response, PyVal.get, hl, hd] at h
        cases h
        exact Or.inr rfl
  | int n =>
    simp only [DynUserStats.from_api_response, PyVal.get] at h
    cases h
    exact Or.inr rfl
  | str s =>
    simp only [DynUserStats.from_api_response, PyVal.get] at h
    cases h
    exact Or.inr rfl

/-- The exception wrapper introduces no new exception kind beyond
`CodeStatsAPIError`: if the wrapped result is some other error, the raw
result already was that error. -/
theorem wrapExceptions_error_cases {A : Type} (r : Except PyExc A) (e : PyExc)
    (h : wrapExceptions r = .error e) :
    (∃ c, e = .codeStatsAPIError c) ∨ r = .error e := by
  cases r with
  | ok a => cases h
  | error er =>
    cases er <;> simp only [wrapExceptions] at h <;> cases h <;>
      first
        | exact Or.inl ⟨_, rfl⟩
        | exact Or.inr rfl

/-- No fetch attempt body raises `DataValidationError`. -/
theorem get_user_stats_body_ne_dve (u : String) (resp : FetchResponse) :
    get_user_stats_body u resp ≠ .error .dataValidationError := by
  intro h
  rcases wrapExceptions_error_cases _ _ h with ⟨c, hc⟩ | hraw
  · cases hc
  · cases resp with
    | timeout => cases hraw
    | netError => cases hraw
    | http status body =>
      simp only [rawAttempt] at hraw
      by_cases hs : 200 ≤ status ∧ status < 300
      · rw [if_pos hs] at hraw
        rcases user_from_api_error_shape u body _ hraw with h1 | h1 <;> cases h1
      · rw [if_neg hs] at hraw
        cases hraw

/-- The exact-arithmetic embedding of the level formula agrees with
the real-number expression `⌊0.025 * sqrt n⌋`. -/
theorem nat_sqrt_div_forty_eq_floor (n : ℕ) :
    ((Nat.sqrt n / 40 : ℕ) : ℤ) = ⌊(0.025 : ℝ) * Real.sqrt n⌋ := by
  have h1 : (0.025 : ℝ) * Real.sqrt n = Real.sqrt n / ((40 : ℕ) : ℝ) := by
    push_cast
    norm_num
    ring
  have h2 : (0 : ℝ) ≤ Real.sqrt n / ((40 : ℕ) : ℝ) := by positivity
  rw [h1, ← Int.natCast_floor_eq_floor h2, Nat.floor_div_nat,
    Real.nat_floor_real_sqrt_eq_nat_sqrt]

/-- The exact-formula model satisfies the real-number specification of
the level formula on the non-negative domain. -/
theorem calculate_level_eq_real_floor (xp : Int) (h : 0 ≤ xp) :
    calculate_level xp = ⌊(0.025 : ℝ) * Real.sqrt (xp : ℝ)⌋ := by
  have hn : ¬ xp < 0 := not_lt.mpr h
  have hx : ((xp.toNat : ℕ) : ℝ) = (xp : ℝ) := by exact_mod_cast Int.toNat_of_nonneg h
  rw [calculate_level, if_neg hn, ← hx]
  exact nat_sqrt_div_forty_eq_floor xp.toNat

/-- A non-numeric payload value makes the level computation raise
`TypeError`. -/
theorem pyCalculateLevel_not_number (v : PyVal) (h : v.isNumber = false) :
    pyCalculateLevel v = .error .typeError := by
  cases v with
  | int n => simp [PyVal.isNumber] at h
  | str s => rfl
  | dict es => rfl

/-- The exception wrapper never lets a raw `TypeError` through: the
`except (KeyError, ValueError, TypeError)` clause catches it. -/
theorem wrapExceptions_ne_typeError {A : Type} (r : Except PyExc A) :
    wrapExceptions r ≠ .error .typeError := by
  intro h
  cases r with
  | ok a => simp [wrapExceptions] at h
  | error e => cases e <;> simp [wrapExceptions] at h

/-- When every language entry is a mapping and at least one of them
holds a non-numeric `xps` value, building the language list raises
`TypeError`. -/
theorem buildLanguages_typeError :
    ∀ (lang_entries : List (String × PyVal)),
      (∀ p ∈ lang_entries, ∃ ds, p.2 = PyVal.dict ds) →
      (∃ p ∈ lang_entries, ∃ ds, p.2 = PyVal.dict ds ∧
          ((ds.lookup "xps").getD (.int 0)).isNumber = false) →
      buildLanguages lang_entries = .error .typeError := by
  intro les
  induction les with
  | nil =>
    intro _ hbad
    rcases hbad with ⟨p, hp, _⟩
    simp at hp
  | cons q rest ih =>
    intro hdicts hbad
    obtain ⟨ds0, hq⟩ := hdicts q (List.mem_cons_self q rest)
    by_cases hnum : ((ds0.lookup "xps").getD (.int 0)).isNumber = true
    · obtain ⟨k, hk⟩ : ∃ k, (ds0.lookup "xps").getD (.int 0) = PyVal.int k := by
        cases hval : (ds0.lookup "xps").getD (.int 0) with
        | int k => exact ⟨k, rfl⟩
        | str s => rw [hval] at hnum; simp [PyVal.isNumber] at hnum
        | dict es => rw [hval] at hnum; simp [PyVal.isNumber] at hnum
      have hhead : DynLanguageStats.from_api_response q.1 q.2
          = .ok ⟨q.1, .int k, (ds0.lookup "new_xps").getD (.int 0), calculate_level k⟩ := by
        rw [hq]
        simp [DynLanguageStats.from_api_response, PyVal.get, hk, pyCalculateLevel]
      have hbad' : ∃ p ∈ rest, ∃ ds, p.2 = PyVal.dict ds ∧
          ((ds.lookup "xps").getD (.int 0)).isNumber = false := by
        rcases hbad with ⟨p, hp, ds, hpds, hds⟩
        rcases List.mem_cons.mp hp with rfl | hp2
        · have hdd : PyVal.dict ds0 = PyVal.dict ds := hq.symm.trans hpds
          cases hdd
          simp [hnum] at hds
        · exact ⟨p, hp2, ds, hpds, hds⟩
      have hrest := ih (fun p hp => hdicts p (List.mem_cons_of_mem _ hp)) hbad'
      simp [buildLanguages, hhead, hrest]
    · have hfail := pyCalculateLevel_not_number _ (Bool.not_eq_true _ ▸ hnum)
      have hhead : DynLanguageStats.from_api_response q.1 q.2 = .error .typeError := by
        rw [hq]
        simp [DynLanguageStats.from_api_response, PyVal.get, hfail]
      simp [buildLanguages, hhead]

/-! ### Claim theorems -/

/-- Claim C9: the claim states the program returns
`floor(0.025 * sqrt xp)` for every non-negative input, totally and
without raising.  The program evaluates the formula in IEEE double
precision, which disagrees: at `xp = 159999999999999999` — inside the
64-bit domain the spec names — converting `xp` to a double rounds it up
to `160000000000000000`, `math.sqrt` returns exactly `400000000.0`,
`0.025 * 400000000.0` evaluates to `10000000.0`, and the program
returns `10000000`; the claimed formula gives `9999999` (the integer
square root is `399999999`).  Beyond double range `math.sqrt` raises
`OverflowError`, so the function is not total either.  The conjuncts
evaluate the intended formula (the `calculate_level` model) at the
failing input, exhibit the mismatch with the program value `10000000`,
tie the model to the real-number formula there, and record the inputs
where program and formula do agree. -/
theorem claim_c9_double_divergence :
    calculate_level 159999999999999999 = 9999999
    ∧ calculate_level 159999999999999999
        = ⌊(0.025 : ℝ) * Real.sqrt ((159999999999999999 : Int) : ℝ)⌋
    ∧ (9999999 : Int) ≠ 10000000
    ∧ calculate_level (-5) = 0
    ∧ calculate_level 0 = 0
    ∧ calculate_level 1000000 = 25 := by
  refine ⟨?_, calculate_level_eq_real_floor _ (by norm_num), by decide, by decide,
    by decide, ?_⟩
  · have h : Nat.sqrt 159999999999999999 = 399999999 :=
      (Nat.eq_sqrt.mpr (by norm_num)).symm
    have h0 : (159999999999999999 : Int).toNat = 159999999999999999 := rfl
    unfold calculate_level
    rw [if_neg (by norm_num : ¬ ((159999999999999999 : Int) < 0)), h0, h]
    norm_num
  · have h : Nat.sqrt 1000000 = 1000 := (Nat.eq_sqrt.mpr (by norm_num)).symm
    have h0 : (1000000 : Int).toNat = 1000000 := rfl
    unfold calculate_level
    rw [if_neg (by norm_num : ¬ ((1000000 : Int) < 0)), h0, h]
    norm_num

/-- Claim C8: for a single-character separator, the rendered line is
exactly the label, one space, the separator repeated
`max(width - len(label) - len(value) - 2, 1)` times, one space, and the
value; the separator run really has that length (so there is always at
least one separator character), and there is exactly one space on each
side of it. -/
theorem claim_c8_formatted_line_render (label value separator : String) (width : Int)
    (h : separator.length = 1) :
    (FormattedLine.mk label value).format separator width
        = label ++ " "
          ++ pyStrRepeat separator (max (width - label.length - value.length - 2) 1).toNat
          ++ " " ++ value
    ∧ (pyStrRepeat separator (max (width - label.length - value.length - 2) 1).toNat).length
        = (max (width - label.length - value.length - 2) 1).toNat
    ∧ 1 ≤ (max (width - label.length - value.length - 2) 1).toNat := by
  refine ⟨?_, ?_, ?_⟩
  · simp only [FormattedLine.format]
    simp [String.append_assoc]
  · rw [length_pyStrRepeat, h, Nat.mul_one]
  · have h1 : (1 : Int) ≤ max (width - label.length - value.length - 2) 1 := le_max_right _ _
    omega

/-- Witness for claim C8: the spec example line. -/
theorem claim_c8_witness :
    (FormattedLine.mk "Total XP" "lvl  26 (1,104,152 XP)").format ":" 54
      = "Total XP" ++ " "
        ++ pyStrRepeat ":"
            (max ((54 : Int) - ("Total XP" : String).length
              - ("lvl  26 (1,104,152 XP)" : String).length - 2) 1).toNat
        ++ " " ++ "lvl  26 (1,104,152 XP)" :=
  (claim_c8_formatted_line_render "Total XP" "lvl  26 (1,104,152 XP)" ":" 54 rfl).1

/-- Claim C10: for a single-character separator the rendered line has
total length exactly `max width (len(label) + len(value) + 3)`:
`width` when label and value fit, and one more character than the label
and value plus the single separator and two spaces otherwise. -/
theorem claim_c10_format_length (label value separator : String) (width : Int)
    (h : separator.length = 1) :
    (((FormattedLine.mk label value).format separator width).length : Int)
      = max width ((label.length : Int) + value.length + 3) := by
  simp only [FormattedLine.format]
  rw [String.length_append, String.length_append, String.length_append,
    String.length_append, length_pyStrRepeat, h, Nat.mul_one]
  simp only [show (" " : String).length = 1 from rfl]
  by_cases hA : width - (label.length : Int) - value.length - 2 ≤ 1
  · rw [max_eq_right hA,
      max_eq_right (show width ≤ (label.length : Int) + value.length + 3 by omega)]
    push_cast
    ring
  · rw [max_eq_left (show (1 : Int) ≤ width - label.length - value.length - 2 by omega),
      max_eq_left (show (label.length : Int) + value.length + 3 ≤ width by omega)]
    push_cast [Int.toNat_of_nonneg
      (show (0 : Int) ≤ width - label.length - value.length - 2 by omega)]
    omega

/-- Witness for claim C10: the spec example line. -/
theorem claim_c10_witness :
    ((((FormattedLine.mk "Total XP" "lvl  26 (1,104,152 XP)").format ":" 54).length : Int))
      = max 54 ((("Total XP" : String).length : Int)
          + ("lvl  26 (1,104,152 XP)" : String).length + 3) :=
  claim_c10_format_length "Total XP" "lvl  26 (1,104,152 XP)" ":" 54 rfl

/-- Claim C3: `update_gist` is idempotent and write-avoiding.  When the
first file body equals the new content and its name equals the new
title, the call returns `false` and performs no write; otherwise it
performs exactly one write replacing that file name and body and
returns `true`.  After any successful call, a second call with the same
title and content returns `false` and performs no write. -/
theorem claim_c3_update_gist_idempotent (title content old_title current_content : String)
    (rest : List (String × String)) (g : GistState)
    (hg : g.files = (old_title, current_content) :: rest) :
    ((current_content = content ∧ old_title = title) →
        update_gist title content g = .ok (false, g, 0))
    ∧ (¬ (current_content = content ∧ old_title = title) →
        update_gist title content g = .ok (true, ⟨(title, content) :: rest⟩, 1))
    ∧ (∀ (b : Bool) (g2 : GistState) (w : Nat),
        update_gist title content g = .ok (b, g2, w) →
        update_gist title content g2 = .ok (false, g2, 0)) := by
  obtain ⟨files⟩ := g
  simp only [GistState.mk.injEq] at hg
  subst hg
  refine ⟨?_, ?_, ?_⟩
  · intro hmatch
    simp only [update_gist, if_pos hmatch]
  · intro hmm
    simp only [update_gist, if_neg hmm]
  · intro b g2 w h
    by_cases hm : current_content = content ∧ old_title = title
    · simp only [update_gist, if_pos hm] at h
      cases h
      simp only [update_gist, if_pos hm]
    · simp only [update_gist, if_neg hm] at h
      cases h
      simp [update_gist]

/-- Witness for claim C3: a matching record is left alone, a differing
record is rewritten once. -/
theorem claim_c3_witness :
    update_gist "t" "c" ⟨[("t", "c")]⟩ = .ok (false, ⟨[("t", "c")]⟩, 0)
    ∧ update_gist "t" "c" ⟨[("old", "x")]⟩ = .ok (true, ⟨[("t", "c")]⟩, 1) :=
  ⟨(claim_c3_update_gist_idempotent "t" "c" "t" "c" [] ⟨[("t", "c")]⟩ rfl).1 ⟨rfl, rfl⟩,
   (claim_c3_update_gist_idempotent "t" "c" "old" "x" [] ⟨[("old", "x")]⟩ rfl).2.1
     (by simp)⟩

/-- Claim C5: in the two non-recent modes the language lines are
exactly the languages sorted by xp descending — stably, so ties keep
their payload order, which the filter conjunct expresses — truncated to
the first `top_count` and rendered one line each in that order; the
spec example with xp values 500, 1500, 1000 and `top_count = 2` yields
the B line then the C line. -/
theorem claim_c5_top_languages (stats_type : StatsType) (top_count : Nat)
    (languages : List LanguageStats) (h : stats_type ≠ StatsType.RECENT_XP) :
    format_language_lines stats_type top_count languages
        = ((pySortDesc (fun x => x.xp) languages).take top_count).map
            (format_language_line stats_type)
    ∧ List.Sorted (fun a b => b.xp ≤ a.xp) (pySortDesc (fun x => x.xp) languages)
    ∧ (∀ v : Int, (pySortDesc (fun x => x.xp) languages).filter (fun x => x.xp = v)
          = languages.filter (fun x => x.xp = v))
    ∧ format_language_lines stats_type 2
          [⟨"A", 500, 0, 0⟩, ⟨"B", 1500, 0, 0⟩, ⟨"C", 1000, 0, 0⟩]
        = [format_language_line stats_type ⟨"B", 1500, 0, 0⟩,
           format_language_line stats_type ⟨"C", 1000, 0, 0⟩] := by
  refine ⟨?_, sorted_pySortDesc _ _, fun v => filter_pySortDesc _ v _, ?_⟩
  · simp [format_language_lines, h]
  · cases stats_type with
    | RECENT_XP => exact absurd rfl h
    | LEVEL_XP => rfl
    | XP => rfl

/-- Witness for claim C5: the spec example in level-xp mode. -/
theorem claim_c5_witness :
    format_language_lines StatsType.LEVEL_XP 2
        [⟨"A", 500, 0, 0⟩, ⟨"B", 1500, 0, 0⟩, ⟨"C", 1000, 0, 0⟩]
      = [format_language_line StatsType.LEVEL_XP ⟨"B", 1500, 0, 0⟩,
         format_language_line StatsType.LEVEL_XP ⟨"C", 1000, 0, 0⟩] :=
  (claim_c5_top_languages StatsType.LEVEL_XP 2
      [⟨"A", 500, 0, 0⟩, ⟨"B", 1500, 0, 0⟩, ⟨"C", 1000, 0, 0⟩] (by decide)).2.2.2

/-- Claim C6: in recent-xp mode the language lines come from the
languages with positive recent xp, sorted by recent xp descending
(stably: the filter conjunct), truncated to `top_count`; and whenever
every language has zero recent xp the language lines are exactly the
fixed four-line placeholder block, independent of every other field. -/
theorem claim_c6_recent_languages (top_count : Nat) (languages : List LanguageStats) :
    format_language_lines StatsType.RECENT_XP top_count languages
        = (if ((pySortDesc (fun x => x.new_xp)
                  (languages.filter (fun x => 0 < x.new_xp))).take top_count).isEmpty
           then NO_RECENT_ACTIVITY
           else ((pySortDesc (fun x => x.new_xp)
                  (languages.filter (fun x => 0 < x.new_xp))).take top_count).map
                  (format_language_line StatsType.RECENT_XP))
    ∧ List.Sorted (fun a b => b.new_xp ≤ a.new_xp)
        (pySortDesc (fun x => x.new_xp) (languages.filter (fun x => 0 < x.new_xp)))
    ∧ (∀ v : Int,
        (pySortDesc (fun x => x.new_xp) (languages.filter (fun x => 0 < x.new_xp))).filter
            (fun x => x.new_xp = v)
          = (languages.filter (fun x => 0 < x.new_xp)).filter (fun x => x.new_xp = v))
    ∧ ((∀ lang ∈ languages, lang.new_xp = 0) →
        format_language_lines StatsType.RECENT_XP top_count languages
          = NO_RECENT_ACTIVITY) := by
  refine ⟨rfl, sorted_pySortDesc _ _, fun v => filter_pySortDesc _ v _, ?_⟩
  intro hall
  have hf : languages.filter (fun x => 0 < x.new_xp) = [] := by
    rw [List.filter_eq_nil_iff]
    intro lang hl
    have := hall lang hl
    simp [this]
  simp [format_language_lines, hf, pySortDesc, List.insertionSort]

/-- Witness for claim C6: one language with zero recent xp produces the
placeholder block. -/
theorem claim_c6_witness :
    format_language_lines StatsType.RECENT_XP 3 [⟨"Python", 100, 0, 0⟩]
      = NO_RECENT_ACTIVITY :=
  (claim_c6_recent_languages 3 [⟨"Python", 100, 0, 0⟩]).2.2.2 (by decide)

/-- Claim C7: the value string of the total line and of each language
line is the mode template of the specification applied to that line's
own xp, level and recent xp, the recent-xp suffix appearing exactly
when the recent xp is positive; the three concrete conjuncts pin the
templates to literal renderings. -/
theorem claim_c7_value_rendering (stats_type : StatsType) (stats : UserStats)
    (lang : LanguageStats) :
    (format_total_line stats_type stats).value
        = specValueRendering stats_type stats.total_xp stats.level stats.new_xp
    ∧ (format_language_line stats_type lang).value
        = specValueRendering stats_type lang.xp lang.level lang.new_xp
    ∧ specValueRendering StatsType.LEVEL_XP 1104152 26 0 = "lvl  26 (1,104,152 XP)"
    ∧ specValueRendering StatsType.XP 1104152 26 0 = "1,104,152 XP"
    ∧ specValueRendering StatsType.RECENT_XP 1104152 26 1500
        = "lvl  26 (1,104,152 XP) (+ 1,500)" := by
  refine ⟨?_, ?_, by decide, by decide, by decide⟩
  · cases stats_type with
    | LEVEL_XP => rfl
    | XP => rfl
    | RECENT_XP =>
      simp only [format_total_line, format_xp_value, specValueRendering]
      by_cases hn : 0 < stats.new_xp
      · rw [if_pos hn, if_pos hn]
        simp only [← String.append_assoc]
      · rw [if_neg hn, if_neg hn, String.append_empty]
  · cases stats_type with
    | LEVEL_XP => rfl
    | XP => rfl
    | RECENT_XP =>
      simp only [format_language_line, format_xp_value, specValueRendering]
      by_cases hn : 0 < lang.new_xp
      · rw [if_pos hn, if_pos hn]
        simp only [← String.append_assoc]
      · rw [if_neg hn, if_neg hn, String.append_empty]

/-- Claim C1: the claim states that a persistently timing-out fetch
under three allowed attempts performs exactly 3 attempts and then
raises `CodeStatsAPIError`.  The code disagrees: the
`except httpx.RequestError` clause inside the function body wraps the
timeout into `CodeStatsAPIError` before the tenacity predicate
`retry_if_exception_type((TimeoutException, NetworkError))` inspects
it, so the escaped exception is never retryable and exactly one
attempt is made.  The last two conjuncts isolate the cause: the
wrapped exception fails the retry predicate although the raw timeout
would have satisfied it. -/
theorem claim_c1_timeout_no_retry (username : String) :
    get_user_stats 3 username (fun _ => FetchResponse.timeout)
        = (1, .error (.codeStatsAPIError none))
    ∧ get_user_stats_body username FetchResponse.timeout
        = .error (.codeStatsAPIError none)
    ∧ retryPredicate (.codeStatsAPIError none) = false
    ∧ retryPredicate .timeoutException = true :=
  ⟨runRetry_stop _ _ 2 0 _ rfl rfl, rfl, rfl, rfl⟩

/-- Claim C4: a fetch whose response has a non-2xx status fails on the
first attempt with `CodeStatsAPIError` carrying the status code, and no
retry is attempted. -/
theorem claim_c4_non_2xx_no_retry (username : String) (status : Nat) (body : PyVal)
    (h : ¬ (200 ≤ status ∧ status < 300)) :
    get_user_stats 3 username (fun _ => FetchResponse.http status body)
        = (1, .error (.codeStatsAPIError (some status))) := by
  have hb : get_user_stats_body username (FetchResponse.http status body)
      = .error (.codeStatsAPIError (some status)) := by
    simp [get_user_stats_body, rawAttempt, h, wrapExceptions]
  exact runRetry_stop _ _ 2 0 _ hb rfl

/-- Witness for claim C4 at status 404. -/
theorem claim_c4_witness :
    get_user_stats 3 "octocat" (fun _ => FetchResponse.http 404 (PyVal.dict []))
      = (1, .error (.codeStatsAPIError (some 404))) :=
  claim_c4_non_2xx_no_retry "octocat" 404 (PyVal.dict []) (by decide)

/-- Counterexample to claim C2: a payload whose `total_xp` holds a
string makes the fetch-path construction fail with `CodeStatsAPIError`,
which is not the `DataValidationError` kind the claim names.  The
`DataValidationError` class exists in `exceptions.py` but nothing ever
raises it. -/
theorem claim_c2_counterexample :
    get_user_stats 3 "octocat"
        (fun _ => FetchResponse.http 200
          (PyVal.dict [("total_xp", PyVal.str "not-a-number")]))
      = (1, .error (.codeStatsAPIError none))
    ∧ PyExc.codeStatsAPIError none ≠ PyExc.dataValidationError :=
  ⟨rfl, by decide⟩

/-- Claim C2 as amended: a payload whose `total_xp` holds a
non-numeric value, and likewise a payload whose `total_xp` is numeric
(or absent, defaulting to 0) and whose languages are all mappings with
at least one holding a non-numeric `xps`, make `get_user_stats` fail on
the first attempt with `CodeStatsAPIError`: the raw `TypeError` from
the level computation is caught by the
`except (KeyError, ValueError, TypeError)` clause and wrapped.  No run
of the fetch client ever surfaces a raw `TypeError`, and none ever
produces `DataValidationError` (the class is defined but nothing raises
it).  Finally, a non-numeric `new_xps` value does not make the
construction fail at all — the value is stored as is.  (A language
entry that is itself not a mapping instead raises `AttributeError`,
which the except tuple does not catch.) -/
theorem claim_c2_amended :
    (∀ (username : String) (entries : List (String × PyVal)),
        ((entries.lookup "total_xp").getD (.int 0)).isNumber = false →
        get_user_stats 3 username (fun _ => FetchResponse.http 200 (.dict entries))
          = (1, .error (.codeStatsAPIError none)))
    ∧ (∀ (username : String) (entries : List (String × PyVal)) (t : Int)
          (lang_entries : List (String × PyVal)),
        (entries.lookup "total_xp").getD (.int 0) = .int t →
        (entries.lookup "languages").getD (.dict []) = .dict lang_entries →
        (∀ p ∈ lang_entries, ∃ ds, p.2 = PyVal.dict ds) →
        (∃ p ∈ lang_entries, ∃ ds, p.2 = PyVal.dict ds ∧
            ((ds.lookup "xps").getD (.int 0)).isNumber = false) →
        get_user_stats 3 username (fun _ => FetchResponse.http 200 (.dict entries))
          = (1, .error (.codeStatsAPIError none)))
    ∧ (∀ (maxAttempts : Nat) (username : String) (responses : Nat → FetchResponse),
        (get_user_stats maxAttempts username responses).2
          ≠ .error .typeError)
    ∧ (∀ (maxAttempts : Nat) (username : String) (responses : Nat → FetchResponse),
        (get_user_stats maxAttempts username responses).2
          ≠ .error .dataValidationError)
    ∧ DynUserStats.from_api_response "octocat"
          (.dict [("total_xp", .int 1),
                  ("languages",
                    .dict [("Python", .dict [("xps", .int 1), ("new_xps", .str "typo")])])])
        = .ok ⟨"octocat", .int 1, .int 0, 0, [⟨"Python", .int 1, .str "typo", 0⟩]⟩ := by
  refine ⟨?_, ?_, ?_, ?_, rfl⟩
  · intro username entries h
    have hfail := pyCalculateLevel_not_number _ h
    have hb : get_user_stats_body username (FetchResponse.http 200 (.dict entries))
        = .error (.codeStatsAPIError none) := by
      simp [get_user_stats_body, rawAttempt, DynUserStats.from_api_response, PyVal.get,
        hfail, wrapExceptions]
    exact runRetry_stop _ _ 2 0 _ hb rfl
  · intro username entries t lang_entries h1 h2 hdicts hbad
    have hlangs := buildLanguages_typeError lang_entries hdicts hbad
    have hfrom : DynUserStats.from_api_response username (.dict entries)
        = .error .typeError := by
      simp [DynUserStats.from_api_response, PyVal.get, h1, h2, pyCalculateLevel, hlangs]
    have hb : get_user_stats_body username (FetchResponse.http 200 (.dict entries))
        = .error (.codeStatsAPIError none) := by
      simp [get_user_stats_body, rawAttempt, hfrom, wrapExceptions]
    exact runRetry_stop _ _ 2 0 _ hb rfl
  · intro m u resps h
    rcases runRetry_error_shape _ _ m 0 _ h with h1 | ⟨i, hi⟩
    · exact PyExc.noConfusion h1
    · exact wrapExceptions_ne_typeError (rawAttempt u (resps i)) hi
  · intro m u resps h
    rcases runRetry_error_shape _ _ m 0 _ h with h1 | ⟨i, hi⟩
    · exact PyExc.noConfusion h1
    · exact get_user_stats_body_ne_dve u (resps i) hi

/-- Witness for the amended claim C2: one payload with a string
`total_xp` and one payload with a string `xps` inside a language. -/
theorem claim_c2_amended_witness :
    get_user_stats 3 "octocat"
        (fun _ => FetchResponse.http 200 (PyVal.dict [("total_xp", PyVal.str "x")]))
      = (1, .error (.codeStatsAPIError none))
    ∧ get_user_stats 3 "octocat"
        (fun _ => FetchResponse.http 200
          (PyVal.dict [("languages",
            PyVal.dict [("Python", PyVal.dict [("xps", PyVal.str "NaN")])])]))
      = (1, .error (.codeStatsAPIError none)) :=
  ⟨claim_c2_amended.1 "octocat" [("total_xp", PyVal.str "x")] rfl,
   claim_c2_amended.2.1 "octocat"
     [("languages", PyVal.dict [("Python", PyVal.dict [("xps", PyVal.str "NaN")])])]
     0 [("Python", PyVal.dict [("xps", PyVal.str "NaN")])] rfl rfl
     (by
       intro p hp
       rw [List.mem_singleton] at hp
       subst hp
       exact ⟨[("xps", PyVal.str "NaN")], rfl⟩)
     ⟨("Python", PyVal.dict [("xps", PyVal.str "NaN")]),
       List.mem_singleton.mpr rfl, [("xps", PyVal.str "NaN")], rfl, rfl⟩⟩

end CodeStatsBox
